import Mathlib

set_option autoImplicit false

/-!
Verification of the ppg-hub update-semantics and error-taxonomy layer.

Shallow embedding of the relevant source modules:
  app/core/errors.py          (problem details, the four exception handlers)
  app/services/instituicao_service.py and app/repositories/instituicao_repo.py
  app/services/role_service.py and app/repositories/role_repo.py
  app/services/programa_service.py and app/repositories/programa_repo.py
  app/api/routes/instituicoes.py and app/api/routes/roles.py
  app/models/instituicao.py, app/models/role.py (column metadata)
  app/schemas/instituicao.py, app/schemas/role.py (payload shapes)

Python values flowing through these layers (JSON bodies, ORM attribute values,
dict payloads) are embedded as the inductive `Val`.  An ORM row or object is an
association list from attribute name to value; a pydantic payload with presence
tracking is a structure whose fields are `Option Val` (`none` = the field was
absent from the request body, `some Val.vnull` = the field was present with an
explicit JSON null).
-/

/-- A Python/JSON value as it appears in payload dicts and ORM attributes. -/
inductive Val where
  | vnull  : Val
  | vbool  : Bool → Val
  | vint   : Int → Val
  | vstr   : String → Val
  | vdict  : List (String × Val) → Val
  | vlist  : List Val → Val

instance : Inhabited Val := ⟨Val.vnull⟩

/-- An ORM row / Python object: an association list from attribute name to value. -/
abbrev Row := List (String × Val)

/-- Python attribute read (`getattr`): first binding of the key, if any. -/
def getAttr : Row → String → Option Val
  | [], _ => none
  | (k1, v) :: t, k => if k1 == k then some v else getAttr t k

/-- Python attribute write (`setattr`): replace the binding in place when the
attribute exists, append a fresh attribute otherwise. -/
def setAttr : Row → String → Val → Row
  | [], k, v => [(k, v)]
  | (k1, v1) :: t, k, v =>
    if k1 == k then (k, v) :: t else (k1, v1) :: setAttr t k v

/-- Dict lookup on a dumped payload (`"k" in data` / `data["k"]`): same
association-list semantics as an attribute read. -/
def lookupData (data : List (String × Val)) (k : String) : Option Val :=
  getAttr data k

/-- Helper for pydantic `model_dump(exclude_unset=True)`: a field contributes an
entry exactly when it was submitted. -/
def optEntry (k : String) : Option Val → List (String × Val)
  | some v => [(k, v)]
  | none   => []

-- ------------------------------------------------------------
-- app/core/errors.py
-- ------------------------------------------------------------

/-- The request context the handlers read (`request.method`, `request.url`). -/
structure RequestCtx where
  method : String
  url : String

/-- RFC 7807 schema from app/core/errors.py (class ProblemDetails).  The Python
field named `instance` is embedded as `instanceUri` because `instance` is a
Lean keyword; the serializer below emits the original key string. -/
structure ProblemDetails where
  type : String
  title : String
  status : Nat
  detail : Option String
  instanceUri : Option String
  errors : Option (List (String × Val))
  meta : Option (List (String × Val))

/-- `pd.model_dump(exclude_none=True)` in `_problem_response`: fields holding
`None` are omitted from the serialized payload. -/
def ProblemDetails.model_dump_exclude_none (p : ProblemDetails) : List (String × Val) :=
  [("type", Val.vstr p.type), ("title", Val.vstr p.title), ("status", Val.vint p.status)]
    ++ (match p.detail with | some d => [("detail", Val.vstr d)] | none => [])
    ++ (match p.instanceUri with | some u => [("instance", Val.vstr u)] | none => [])
    ++ (match p.errors with | some e => [("errors", Val.vdict e)] | none => [])
    ++ (match p.meta with | some m => [("meta", Val.vdict m)] | none => [])

/-- `_status_title`: `HTTPStatus(code).phrase`, with "HTTP Error" as the
fallback for unknown codes.  Only the codes this application produces are
tabulated. -/
def status_title (code : Nat) : String :=
  match code with
  | 400 => "Bad Request"
  | 401 => "Unauthorized"
  | 403 => "Forbidden"
  | 404 => "Not Found"
  | 409 => "Conflict"
  | 422 => "Unprocessable Entity"
  | 500 => "Internal Server Error"
  | _ => "HTTP Error"

/-- `build_problem`: the single factory every handler uses.  `meta` always
receives the request method first, then the handler-specific entries. -/
def build_problem (req : RequestCtx) (status_code : Nat) (title : Option String)
    (detail : Option String) (type_url : Option String)
    (errors : Option (List (String × Val))) (meta : List (String × Val)) : ProblemDetails :=
  { type := type_url.getD "about:blank"
    title := title.getD (status_title status_code)
    status := status_code
    detail := detail
    instanceUri := some req.url
    errors := errors
    meta := some (("method", Val.vstr req.method) :: meta) }

/-- `http_exception_handler`: HTTPException of any status (404 from the routes
in particular); `detail` is the exception detail when it is a string. -/
def http_exception_handler (req : RequestCtx) (status_code : Nat)
    (detail : Option String) : ProblemDetails :=
  build_problem req status_code none detail none none []

/-- One entry of `exc.errors()` as FastAPI hands it to the 422 handler. -/
structure PydanticError where
  loc : Val
  msg : Val
  ty : Val

/-- The per-field descriptor the 422 handler builds from one pydantic error. -/
def pydErrDescriptor (e : PydanticError) : Val :=
  Val.vdict [("loc", e.loc), ("msg", e.msg), ("type", e.ty)]

/-- `validation_exception_handler`: 422 with one descriptor per validation
error, covering the whole of `exc.errors()`. -/
def validation_exception_handler (req : RequestCtx) (errs : List PydanticError) : ProblemDetails :=
  build_problem req 422 (some "Unprocessable Entity")
    (some "Erros de validação no corpo/parâmetros.")
    (some "urn:ppghub:errors:validation")
    (some [("items", Val.vlist (errs.map pydErrDescriptor))])
    []

-- The duplicate-key regex of errors.py:
--   Key \((?P<field>\w+)\)=\((?P<value>.+?)\) already exists
-- embedded as an explicit leftmost search with a greedy word group and a lazy
-- value group, `.` not matching a newline.

/-- `\w` of the regex. -/
def isWordChar (c : Char) : Bool := c.isAlphanum || c == '_'

/-- The literal tail of the pattern, after the value group. -/
def dupTail : List Char := (") already exists").toList

/-- Lazy scan for the value group: consume one non-newline character at a time
and stop at the first position where the literal tail follows. -/
def valScan : List Char → List Char → Option (List Char)
  | _, [] => none
  | acc, c :: rest =>
    if c == '\n' then none
    else if dupTail.isPrefixOf rest then some (acc ++ [c])
    else valScan (acc ++ [c]) rest

/-- Attempt the full pattern at the head of the text. -/
def matchDupAt (s : List Char) : Option (String × String) :=
  if ("Key (").toList.isPrefixOf s then
    let rest := s.drop 5
    let field := rest.takeWhile isWordChar
    let rest2 := rest.dropWhile isWordChar
    if field.isEmpty then none
    else if (")=(").toList.isPrefixOf rest2 then
      match valScan [] (rest2.drop 3) with
      | some v => some (String.mk field, String.mk v)
      | none => none
    else none
  else none

/-- `re.search`: leftmost starting position at which the pattern matches. -/
def uniqueSearchList : List Char → Option (String × String)
  | [] => none
  | s@(_ :: rest) =>
    match matchDupAt s with
    | some r => some r
    | none => uniqueSearchList rest

/-- `_UNIQUE.search(msg)` with the captured field and value. -/
def uniqueSearch (msg : String) : Option (String × String) :=
  uniqueSearchList msg.toList

/-- The `hint` value placed in the 409 errors dict: a field/value mapping on a
match, the dict value `None` otherwise. -/
def hintVal (h : Option (String × String)) : Val :=
  match h with
  | some (f, v) => Val.vdict [("field", Val.vstr f), ("value", Val.vstr v)]
  | none => Val.vnull

/-- `integrity_error_handler`: 409 conflict with a fixed sanitized detail, the
driver code, and the best-effort duplicate-key hint. -/
def integrity_error_handler (req : RequestCtx) (pgcode : Option String)
    (origMsg : String) : ProblemDetails :=
  build_problem req 409 (some "Conflict")
    (some "Conflito com restrições do banco de dados.")
    (some "urn:ppghub:errors:conflict")
    (some [("db_code", match pgcode with | some c => Val.vstr c | none => Val.vnull),
           ("hint", hintVal (uniqueSearch origMsg))])
    []

/-- `unhandled_exception_handler`: 500 with a generic message unless the debug
flag is set; meta additionally carries the request id header. -/
def unhandled_exception_handler (req : RequestCtx) (debug : Bool) (excMsg : String)
    (requestId : Option String) : ProblemDetails :=
  build_problem req 500 (some "Internal Server Error")
    (some (if debug then excMsg else "Ocorreu um erro interno no servidor."))
    (some "urn:ppghub:errors:internal")
    none
    [("request_id", match requestId with | some r => Val.vstr r | none => Val.vnull)]

/-- The seven field names of the uniform problem shape. -/
def problemFieldNames : List String :=
  ["type", "title", "status", "detail", "instance", "errors", "meta"]

-- ------------------------------------------------------------
-- app/models/instituicao.py — column metadata of the Instituicao model
-- ------------------------------------------------------------

/-- The mapped column names of `Instituicao`.  Note the soft-state flag is the
column `ativa`; there is no column named `ativo`. -/
def instituicaoColumns : List String :=
  ["id", "codigo", "nome_completo", "nome_abreviado", "sigla", "tipo", "cnpj",
   "natureza_juridica", "endereco", "contatos", "redes_sociais", "logo_url",
   "website", "fundacao", "openalex_institution_id", "ror_id", "ativa",
   "configuracoes", "created_at", "updated_at"]

/-- Columns declared `nullable=False` on `Instituicao`. -/
def instituicaoNonNullable : List String :=
  ["id", "codigo", "nome_completo", "nome_abreviado", "sigla", "tipo", "ativa",
   "configuracoes", "created_at", "updated_at"]

/-- Columns carrying a uniqueness constraint on `Instituicao` (`codigo` and
`sigla` via UniqueConstraint, `cnpj` via `unique=True`). -/
def instituicaoUniqueCols : List String := ["codigo", "sigla", "cnpj"]

-- ------------------------------------------------------------
-- app/schemas/instituicao.py — payload shapes
-- ------------------------------------------------------------

/-- The seventeen fields declared on `InstituicaoBase` (the full schema shared
by create and read payloads), in declaration order.  The schema flag is named
`ativo`, unlike the model column `ativa`. -/
def instituicaoBaseFields : List String :=
  ["codigo", "nome_completo", "nome_abreviado", "sigla", "tipo", "cnpj",
   "natureza_juridica", "endereco", "contatos", "redes_sociais", "logo_url",
   "website", "fundacao", "openalex_institution_id", "ror_id", "ativo",
   "configuracoes"]

/-- `InstituicaoUpdate` (PATCH payload): every field optional, with presence
tracking.  `none` = field absent from the request body; `some Val.vnull` =
field present with an explicit null; `some v` = field present with value. -/
structure InstituicaoUpdate where
  codigo : Option Val := none
  nome_completo : Option Val := none
  nome_abreviado : Option Val := none
  sigla : Option Val := none
  tipo : Option Val := none
  cnpj : Option Val := none
  natureza_juridica : Option Val := none
  endereco : Option Val := none
  contatos : Option Val := none
  redes_sociais : Option Val := none
  logo_url : Option Val := none
  website : Option Val := none
  fundacao : Option Val := none
  openalex_institution_id : Option Val := none
  ror_id : Option Val := none
  ativo : Option Val := none
  configuracoes : Option Val := none

/-- `payload.model_dump(exclude_unset=True)`: only submitted fields appear, in
schema declaration order, explicit nulls included. -/
def InstituicaoUpdate.model_dump_exclude_unset (p : InstituicaoUpdate) : List (String × Val) :=
  optEntry "codigo" p.codigo ++ optEntry "nome_completo" p.nome_completo
    ++ optEntry "nome_abreviado" p.nome_abreviado ++ optEntry "sigla" p.sigla
    ++ optEntry "tipo" p.tipo ++ optEntry "cnpj" p.cnpj
    ++ optEntry "natureza_juridica" p.natureza_juridica ++ optEntry "endereco" p.endereco
    ++ optEntry "contatos" p.contatos ++ optEntry "redes_sociais" p.redes_sociais
    ++ optEntry "logo_url" p.logo_url ++ optEntry "website" p.website
    ++ optEntry "fundacao" p.fundacao
    ++ optEntry "openalex_institution_id" p.openalex_institution_id
    ++ optEntry "ror_id" p.ror_id ++ optEntry "ativo" p.ativo
    ++ optEntry "configuracoes" p.configuracoes

/-- `InstituicaoCreate` after pydantic validation: the five business fields are
required (always set), the rest optional with presence tracking; `ativo`
defaults to true when unset. -/
structure InstituicaoCreate where
  codigo : String
  nome_completo : String
  nome_abreviado : String
  sigla : String
  tipo : String
  cnpj : Option Val := none
  natureza_juridica : Option Val := none
  endereco : Option Val := none
  contatos : Option Val := none
  redes_sociais : Option Val := none
  logo_url : Option Val := none
  website : Option Val := none
  fundacao : Option Val := none
  openalex_institution_id : Option Val := none
  ror_id : Option Val := none
  ativo : Option Bool := none
  configuracoes : Option Val := none

/-- `payload.model_dump(exclude_unset=True)` on a create payload (the service
path): required fields always appear, optional fields only when submitted. -/
def InstituicaoCreate.model_dump_exclude_unset (p : InstituicaoCreate) : List (String × Val) :=
  [("codigo", Val.vstr p.codigo), ("nome_completo", Val.vstr p.nome_completo),
   ("nome_abreviado", Val.vstr p.nome_abreviado), ("sigla", Val.vstr p.sigla),
   ("tipo", Val.vstr p.tipo)]
    ++ optEntry "cnpj" p.cnpj ++ optEntry "natureza_juridica" p.natureza_juridica
    ++ optEntry "endereco" p.endereco ++ optEntry "contatos" p.contatos
    ++ optEntry "redes_sociais" p.redes_sociais ++ optEntry "logo_url" p.logo_url
    ++ optEntry "website" p.website ++ optEntry "fundacao" p.fundacao
    ++ optEntry "openalex_institution_id" p.openalex_institution_id
    ++ optEntry "ror_id" p.ror_id
    ++ (match p.ativo with | some b => [("ativo", Val.vbool b)] | none => [])
    ++ optEntry "configuracoes" p.configuracoes

/-- `payload.model_dump()` with no exclusion (the route boundary): every
declared field appears, defaults filled in (`ativo` defaults to True,
`configuracoes` to the empty dict, other optionals to null). -/
def InstituicaoCreate.model_dump (p : InstituicaoCreate) : List (String × Val) :=
  [("codigo", Val.vstr p.codigo), ("nome_completo", Val.vstr p.nome_completo),
   ("nome_abreviado", Val.vstr p.nome_abreviado), ("sigla", Val.vstr p.sigla),
   ("tipo", Val.vstr p.tipo),
   ("cnpj", (p.cnpj.getD Val.vnull)),
   ("natureza_juridica", (p.natureza_juridica.getD Val.vnull)),
   ("endereco", (p.endereco.getD Val.vnull)),
   ("contatos", (p.contatos.getD Val.vnull)),
   ("redes_sociais", (p.redes_sociais.getD Val.vnull)),
   ("logo_url", (p.logo_url.getD Val.vnull)),
   ("website", (p.website.getD Val.vnull)),
   ("fundacao", (p.fundacao.getD Val.vnull)),
   ("openalex_institution_id", (p.openalex_institution_id.getD Val.vnull)),
   ("ror_id", (p.ror_id.getD Val.vnull)),
   ("ativo", Val.vbool (p.ativo.getD true)),
   ("configuracoes", (p.configuracoes.getD (Val.vdict [])))]

-- ------------------------------------------------------------
-- app/repositories/instituicao_repo.py
-- ------------------------------------------------------------

/-- Does this row carry the given primary key value? -/
def rowIdIs (r : Row) (iid : Int) : Bool :=
  match getAttr r "id" with
  | some (Val.vint n) => n == iid
  | _ => false

/-- SQL equality of a string column against a string literal (NULL and
non-string attribute values never compare equal). -/
def attrIsStr (r : Row) (k s : String) : Bool :=
  match getAttr r k with
  | some (Val.vstr t) => t == s
  | _ => false

/-- Is the boolean column true on this row? -/
def attrIsTrue (r : Row) (k : String) : Bool :=
  match getAttr r k with
  | some (Val.vbool b) => b
  | _ => false

/-- `InstituicaoRepository.get`: lookup by primary key, `None` when absent. -/
def InstituicaoRepository.get (store : List Row) (iid : Int) : Option Row :=
  store.find? (fun r => rowIdIs r iid)

/-- `InstituicaoRepository.get_by_codigo`. -/
def InstituicaoRepository.get_by_codigo (store : List Row) (c : String) : Option Row :=
  store.find? (fun r => attrIsStr r "codigo" c)

/-- `InstituicaoRepository.get_by_sigla`. -/
def InstituicaoRepository.get_by_sigla (store : List Row) (s : String) : Option Row :=
  store.find? (fun r => attrIsStr r "sigla" s)

/-- `InstituicaoRepository.update`: `for k, v in data.items(): setattr(obj, k, v)`,
with no filtering of any kind, followed by flush. -/
def InstituicaoRepository.update (obj : Row) (data : List (String × Val)) : Row :=
  data.foldl (fun r kv => setAttr r kv.1 kv.2) obj

/-- NOT NULL check the database performs at flush time. -/
def instRowNotNullOk (r : Row) : Bool :=
  instituicaoNonNullable.all (fun k =>
    match getAttr r k with
    | some Val.vnull => false
    | _ => true)

/-- Uniqueness check the database performs at flush time: no other live row
(id different from `iid`) shares a string value on a unique column. -/
def instUniqueOk (store : List Row) (iid : Int) (r : Row) : Bool :=
  instituicaoUniqueCols.all (fun k =>
    match getAttr r k with
    | some (Val.vstr s) => store.all (fun o => rowIdIs o iid || !(attrIsStr o k s))
    | _ => true)

/-- Constraint violation surfaced by the store as an IntegrityError. -/
def instFlushViolation (store : List Row) (iid : Int) (r : Row) : Bool :=
  !(instRowNotNullOk r && instUniqueOk store iid r)

/-- Outcome of `InstituicaoRepository.create` (`Instituicao(**data)` + flush):
SQLAlchemy raises TypeError on a keyword argument that is not a mapped
attribute; the database raises IntegrityError on a constraint violation. -/
inductive RepoCreateOutcome where
  | created (row : Row)
  | typeError (badKey : String)
  | integrityError

/-- `InstituicaoRepository.create`: construct `Instituicao(**data)` and flush.
`nextId` is the key the insert assigns. -/
def InstituicaoRepository.create (store : List Row) (nextId : Int)
    (data : List (String × Val)) : RepoCreateOutcome :=
  match data.find? (fun kv => !(instituicaoColumns.contains kv.1)) with
  | some kv => .typeError kv.1
  | none =>
    let row := ("id", Val.vint nextId) :: data
    if instFlushViolation store nextId row then .integrityError else .created row

/-- Outcome of a repository query that resolves model attributes by name:
referencing a nonexistent mapped attribute raises AttributeError. -/
inductive RepoQueryOutcome (α : Type) where
  | ok (a : α)
  | attributeError

/-- `InstituicaoRepository.list`: pagination plus the optional
`Instituicao.ativo` filter — an attribute the model does not declare. -/
def InstituicaoRepository.list (store : List Row) (limit offset : Nat)
    (only_active : Bool) : RepoQueryOutcome (List Row) :=
  if only_active then
    if instituicaoColumns.contains "ativo" then
      .ok (((store.filter (fun r => attrIsTrue r "ativo")).drop offset).take limit)
    else .attributeError
  else .ok ((store.drop offset).take limit)

/-- `InstituicaoRepository.count`, with the same `Instituicao.ativo` filter. -/
def InstituicaoRepository.count (store : List Row) (only_active : Bool) :
    RepoQueryOutcome Nat :=
  if only_active then
    if instituicaoColumns.contains "ativo" then
      .ok (store.filter (fun r => attrIsTrue r "ativo")).length
    else .attributeError
  else .ok store.length

-- ------------------------------------------------------------
-- app/services/instituicao_service.py
-- ------------------------------------------------------------

/-- Errors the institution service raises: LookupError for a missing id,
ValueError from the uniqueness pre-checks, IntegrityError surfaced by the
store at flush time. -/
inductive InstErr where
  | lookupError (msg : String)
  | valueError (msg : String)
  | integrityError

/-- `InstituicaoService.update`: load the row (LookupError when absent), dump
the payload with `exclude_unset=True`, pre-validate `codigo` and `sigla`
uniqueness when those keys were submitted (ValueError on a clash with another
row), then hand the whole changeset to `repo.update`.

The success value is `(row, storeInvoked, bumped)`: the updated ORM object,
whether `repo.update` was called (the code calls it unconditionally once the
checks pass), and whether the flush issued an UPDATE statement — which is what
bumps the `onupdate` timestamp — i.e. whether the changeset touched at least
one mapped column. -/
def InstituicaoService.update (store : List Row) (iid : Int)
    (payload : InstituicaoUpdate) : Except InstErr (Row × Bool × Bool) :=
  match InstituicaoRepository.get store iid with
  | none => .error (.lookupError "Instituição não encontrada.")
  | some obj =>
    let data := payload.model_dump_exclude_unset
    let codigoDup :=
      match lookupData data "codigo" with
      | some (Val.vstr c) =>
        match InstituicaoRepository.get_by_codigo store c with
        | some other => !(rowIdIs other iid)
        | none => false
      | _ => false
    if codigoDup then .error (.valueError "Código já cadastrado para outra instituição.")
    else
      let siglaDup :=
        match lookupData data "sigla" with
        | some (Val.vstr s) =>
          match InstituicaoRepository.get_by_sigla store s with
          | some other => !(rowIdIs other iid)
          | none => false
        | _ => false
      if siglaDup then .error (.valueError "Sigla já cadastrada para outra instituição.")
      else
        let row := InstituicaoRepository.update obj data
        if instFlushViolation store iid row then .error .integrityError
        else .ok (row, true, data.any (fun kv => instituicaoColumns.contains kv.1))

/-- Outcome of `InstituicaoService.create`. -/
inductive InstCreateOutcome where
  | ok (row : Row)
  | valueError (msg : String)
  | typeError (badKey : String)
  | integrityError

/-- `InstituicaoService.create`: check-then-act uniqueness pre-validation on
`codigo` and `sigla` (ValueError), then `repo.create` with the
`exclude_unset=True` dump.  The ValueError branches return before the store is
ever reached. -/
def InstituicaoService.create (store : List Row) (nextId : Int)
    (payload : InstituicaoCreate) : InstCreateOutcome :=
  match InstituicaoRepository.get_by_codigo store payload.codigo with
  | some _ => .valueError "Código já cadastrado para outra instituição."
  | none =>
    match InstituicaoRepository.get_by_sigla store payload.sigla with
    | some _ => .valueError "Sigla já cadastrada para outra instituição."
    | none =>
      match InstituicaoRepository.create store nextId payload.model_dump_exclude_unset with
      | .created row => .ok row
      | .typeError k => .typeError k
      | .integrityError => .integrityError

-- ------------------------------------------------------------
-- app/api/routes/instituicoes.py (read and delete wiring)
-- ------------------------------------------------------------

/-- GET /instituicoes/:id: 404 when the service returns None, 200 otherwise. -/
def get_instituicao_route (store : List Row) (iid : Int) : Nat :=
  match InstituicaoRepository.get store iid with
  | none => 404
  | some _ => 200

/-- DELETE /instituicoes/:id: `InstituicaoService.delete` silently returns
when the row is absent, and the route answers 200 with a success message in
every case.  The result is the status code and the store after the call. -/
def delete_instituicao_route (store : List Row) (iid : Int) : Nat × List Row :=
  match InstituicaoRepository.get store iid with
  | none => (200, store)
  | some _ => (200, store.filter (fun r => !(rowIdIs r iid)))

-- ------------------------------------------------------------
-- app/models/role.py, app/schemas/role.py
-- ------------------------------------------------------------

/-- The mapped column names of `Role` (schema auth.roles). -/
def roleColumns : List String :=
  ["id", "nome", "descricao", "nivel_acesso", "permissoes", "ativo",
   "criado_em", "atualizado_em"]

/-- Columns declared `nullable=False` on `Role`. -/
def roleNonNullable : List String :=
  ["id", "nome", "nivel_acesso", "permissoes", "ativo", "criado_em"]

/-- Columns declared nullable on `Role`. -/
def roleNullable : List String := ["descricao", "atualizado_em"]

/-- `RoleUpdate` (payload of PUT /roles/:id): every field optional, with
presence tracking as in `InstituicaoUpdate`. -/
structure RoleUpdatePayload where
  nome : Option Val := none
  descricao : Option Val := none
  nivel_acesso : Option Val := none
  permissoes : Option Val := none
  ativo : Option Val := none

/-- `payload.model_dump(exclude_unset=True)` for `RoleUpdate`. -/
def RoleUpdatePayload.model_dump_exclude_unset (p : RoleUpdatePayload) : List (String × Val) :=
  optEntry "nome" p.nome ++ optEntry "descricao" p.descricao
    ++ optEntry "nivel_acesso" p.nivel_acesso ++ optEntry "permissoes" p.permissoes
    ++ optEntry "ativo" p.ativo

-- ------------------------------------------------------------
-- app/repositories/role_repo.py and app/services/role_service.py
-- ------------------------------------------------------------

/-- `RoleRepository.get_by_id`. -/
def RoleRepository.get_by_id (store : List Row) (rid : Int) : Option Row :=
  store.find? (fun r => rowIdIs r rid)

/-- The setattr loop of `RoleRepository.update`: assignments are guarded by
`hasattr(role, k)` — keys the object does not carry are silently skipped. -/
def applyGuarded (obj : Row) (data : List (String × Val)) : Row :=
  data.foldl
    (fun r kv => if r.any (fun p => p.1 == kv.1) then setAttr r kv.1 kv.2 else r) obj

/-- Constraint check the database performs when `RoleRepository.update`
commits: NOT NULL on the non-nullable columns and uniqueness of `nome`. -/
def roleCommitViolation (store : List Row) (rid : Int) (r : Row) : Bool :=
  roleNonNullable.any (fun k =>
    match getAttr r k with
    | some Val.vnull => true
    | _ => false)
  || (match getAttr r "nome" with
      | some (Val.vstr s) => store.any (fun o => !(rowIdIs o rid) && attrIsStr o "nome" s)
      | _ => false)

/-- Outcome of the role update path: ValueError("Role não encontrada") when the
id is absent, IntegrityError from the store at commit, or the updated row. -/
inductive RoleUpdateOutcome where
  | ok (row : Row)
  | notFound
  | integrityError

/-- `RoleRepository.update`: load, guarded setattr loop over the whole
changeset (explicit nulls included), then commit. -/
def RoleRepository.update (store : List Row) (rid : Int)
    (data : List (String × Val)) : RoleUpdateOutcome :=
  match RoleRepository.get_by_id store rid with
  | none => .notFound
  | some role =>
    let r := applyGuarded role data
    if roleCommitViolation store rid r then .integrityError else .ok r

/-- `RoleService.update_role`: dump with `exclude_unset=True` and delegate. -/
def RoleService.update_role (store : List Row) (rid : Int)
    (p : RoleUpdatePayload) : RoleUpdateOutcome :=
  RoleRepository.update store rid p.model_dump_exclude_unset

/-- PUT /roles/:id: ValueError is mapped to 404 by the route; an
IntegrityError propagates to the global 409 handler; success is 200. -/
def update_role_route (store : List Row) (rid : Int) (p : RoleUpdatePayload) : Nat :=
  match RoleService.update_role store rid p with
  | .ok _ => 200
  | .notFound => 404
  | .integrityError => 409

/-- DELETE /roles/:id: `RoleRepository.delete` issues a bulk UPDATE (soft) or
DELETE (hard) with a WHERE clause on the id — zero rows affected when the id
is absent — and the route answers 204 No Content in every case. -/
def delete_role_route (store : List Row) (rid : Int) (hard : Bool) : Nat × List Row :=
  if hard then (204, store.filter (fun r => !(rowIdIs r rid)))
  else (204, store.map (fun r => if rowIdIs r rid then setAttr r "ativo" (Val.vbool false) else r))

-- ------------------------------------------------------------
-- app/repositories/programa_repo.py and app/services/programa_service.py
-- ------------------------------------------------------------

/-- `ProgramaRepository.delete`: returns False when the id is absent.  The
Programa model declares no `ativo` attribute, so the `hasattr(obj, "ativo")`
guard always routes to physical deletion. -/
def ProgramaRepository.delete (store : List Row) (pid : Int) (hard : Bool) :
    Bool × List Row :=
  match store.find? (fun r => rowIdIs r pid) with
  | none => (false, store)
  | some obj =>
    if hard || !(obj.any (fun kv => kv.1 == "ativo")) then
      (true, store.filter (fun r => !(rowIdIs r pid)))
    else
      (true, store.map (fun r => if rowIdIs r pid then setAttr r "ativo" (Val.vbool false) else r))

/-- `ProgramaService.delete_programa` as the route observes it: 404 when the
repository reports the id missing, 200 otherwise. -/
def delete_programa_route (store : List Row) (pid : Int) (hard : Bool) :
    Nat × List Row :=
  match ProgramaRepository.delete store pid hard with
  | (false, s) => (404, s)
  | (true, s) => (200, s)

-- ------------------------------------------------------------
-- The REPLACE (PUT) resolver
-- ------------------------------------------------------------

/-- Outcome of the REPLACE resolver. -/
inductive PutOutcome where
  | ok (changeset : List (String × Val))
  | validationError (missing : List String)

/-- Modelled from the spec: the PUT path of the institutions router is
incomplete in the source — app/api/routes/instituicoes.py imports the schema
`InstituicaoPut` and calls `InstituicaoService.put`, but neither is defined
anywhere in the repository.  Following spec section 4.1 (REPLACE mode): every
field declared on the entity's full schema must be present in the payload,
otherwise the request fails with a ValidationError listing the missing fields
before any update is applied; when all fields are present the changeset equals
the full payload, explicit nulls included. -/
def put_resolver (payload : List (String × Val)) : PutOutcome :=
  let missing := instituicaoBaseFields.filter (fun k => !(payload.any (fun kv => kv.1 == k)))
  if missing.isEmpty then .ok payload
  else .validationError missing

-- ------------------------------------------------------------
-- Library lemmas about attribute reads after writes
-- ------------------------------------------------------------

theorem getAttr_setAttr_self (r : Row) (k : String) (v : Val) :
    getAttr (setAttr r k v) k = some v := by
  induction r with
  | nil => simp [setAttr, getAttr]
  | cons hd t ih =>
    obtain ⟨k1, v1⟩ := hd
    by_cases hk : k1 == k
    · simp [setAttr, getAttr, hk]
    · simp [setAttr, getAttr, hk, ih]

theorem getAttr_setAttr_ne (r : Row) (k k2 : String) (v : Val) (h : k2 ≠ k) :
    getAttr (setAttr r k v) k2 = getAttr r k2 := by
  have hkk2 : (k == k2) = false := by
    simp only [beq_eq_false_iff_ne]
    exact fun hkeq => h hkeq.symm
  induction r with
  | nil => simp [setAttr, getAttr, hkk2]
  | cons hd t ih =>
    obtain ⟨k1, v1⟩ := hd
    by_cases hk : k1 == k
    · have h1 : k1 = k := by simpa [beq_iff_eq] using hk
      by_cases hk2 : k1 == k2
      · have h2 : k1 = k2 := by simpa [beq_iff_eq] using hk2
        exact absurd (h2 ▸ h1) h
      · simp [setAttr, getAttr, hk, hk2, hkk2]
    · simp [setAttr, getAttr, hk, ih]

-- ------------------------------------------------------------
-- Concrete fixtures
-- ------------------------------------------------------------

/-- A fully populated institution row, as the store would hold it. -/
def instRow (iid : Int) (codigo sigla : String) : Row :=
  [("id", Val.vint iid), ("codigo", Val.vstr codigo),
   ("nome_completo", Val.vstr "Universidade Estadual da Paraíba"),
   ("nome_abreviado", Val.vstr "UEPB"), ("sigla", Val.vstr sigla),
   ("tipo", Val.vstr "Estadual"), ("cnpj", Val.vnull), ("natureza_juridica", Val.vnull),
   ("endereco", Val.vnull), ("contatos", Val.vnull), ("redes_sociais", Val.vnull),
   ("logo_url", Val.vnull), ("website", Val.vnull), ("fundacao", Val.vnull),
   ("openalex_institution_id", Val.vnull), ("ror_id", Val.vnull),
   ("ativa", Val.vbool true), ("configuracoes", Val.vdict []),
   ("created_at", Val.vstr "2024-01-01T00:00:00"),
   ("updated_at", Val.vstr "2024-01-01T00:00:00")]

/-- A fully populated role row. -/
def roleRow (rid : Int) (nome : String) : Row :=
  [("id", Val.vint rid), ("nome", Val.vstr nome), ("descricao", Val.vnull),
   ("nivel_acesso", Val.vint 1), ("permissoes", Val.vdict []),
   ("ativo", Val.vbool true), ("criado_em", Val.vstr "2024-01-01T00:00:00"),
   ("atualizado_em", Val.vnull)]

/-- A create payload reusing the business code of `instRow 1 "UEPB" "UEPB"`
with a fresh sigla. -/
def dupCreate : InstituicaoCreate :=
  { codigo := "UEPB", nome_completo := "Universidade Federal de Campina Grande",
    nome_abreviado := "UFCG", sigla := "UFCG", tipo := "Federal" }

/-- A REPLACE payload carrying every declared field, all explicit nulls. -/
def putPayloadAllNull : List (String × Val) :=
  instituicaoBaseFields.map (fun k => (k, Val.vnull))

/-- A concrete request context for witnesses. -/
def reqGet : RequestCtx := ⟨"GET", "http://test/instituicoes/1"⟩

-- ------------------------------------------------------------
-- Claim theorems
-- ------------------------------------------------------------

theorem dump_keys_sub (p : ProblemDetails) :
    (p.model_dump_exclude_none.map Prod.fst) ⊆ problemFieldNames := by
  rcases p with ⟨t, ti, s, d, i, e, m⟩
  rcases d <;> rcases i <;> rcases e <;> rcases m <;>
    simp [ProblemDetails.model_dump_exclude_none, problemFieldNames, List.subset_def]

/-- C2: for every storage-layer integrity error reaching the conflict
translator, the response is a 409 problem with the machine-readable conflict
category, a fixed sanitized detail that copies no raw engine text (it is the
same constant string for every input message), and a hint that is the
extracted field/value mapping exactly when the engine message matches the
duplicate-key pattern and the dict null otherwise.  The handler is a total
function of the message, so building the response never throws.  The final
two conjuncts evaluate the extractor on a genuine psycopg2 duplicate-key
message and on an unrelated engine message. -/
theorem c2_integrity_conflict_translation (req : RequestCtx) (pgcode : Option String)
    (msg : String) :
    (integrity_error_handler req pgcode msg).status = 409 ∧
    (integrity_error_handler req pgcode msg).type = "urn:ppghub:errors:conflict" ∧
    (integrity_error_handler req pgcode msg).title = "Conflict" ∧
    (integrity_error_handler req pgcode msg).detail =
      some "Conflito com restrições do banco de dados." ∧
    (integrity_error_handler req pgcode msg).errors =
      some [("db_code", match pgcode with | some c => Val.vstr c | none => Val.vnull),
            ("hint", hintVal (uniqueSearch msg))] ∧
    uniqueSearch "duplicate key value violates unique constraint \"uq_instituicao_codigo\"\nDETAIL:  Key (codigo)=(UEPB) already exists." = some ("codigo", "UEPB") ∧
    hintVal (some ("codigo", "UEPB")) =
      Val.vdict [("field", Val.vstr "codigo"), ("value", Val.vstr "UEPB")] ∧
    uniqueSearch "null value in column \"nome_completo\" violates not-null constraint" = none ∧
    hintVal none = Val.vnull :=
  ⟨rfl, rfl, rfl, rfl, rfl, by decide, rfl, by decide, rfl⟩

/-- C3: all four failure classes (HTTPException/404, validation/422,
integrity/409, unhandled/500) are serialized from the single ProblemDetails
shape: the serialized keys are drawn from exactly the seven names type, title,
status, detail, instance, errors, meta, with status holding the HTTP code,
instance the request URI and meta carrying the request method, uniformly and
without renaming across the four handlers. -/
theorem c3_uniform_problem_shape (req : RequestCtx) (code : Nat) (detail : Option String)
    (errs : List PydanticError) (pgcode : Option String) (msg : String)
    (debug : Bool) (requestId : Option String) :
    ((http_exception_handler req code detail).model_dump_exclude_none.map Prod.fst
        ⊆ problemFieldNames) ∧
    ((validation_exception_handler req errs).model_dump_exclude_none.map Prod.fst
        ⊆ problemFieldNames) ∧
    ((integrity_error_handler req pgcode msg).model_dump_exclude_none.map Prod.fst
        ⊆ problemFieldNames) ∧
    ((unhandled_exception_handler req debug msg requestId).model_dump_exclude_none.map Prod.fst
        ⊆ problemFieldNames) ∧
    (http_exception_handler req code detail).status = code ∧
    (validation_exception_handler req errs).status = 422 ∧
    (integrity_error_handler req pgcode msg).status = 409 ∧
    (unhandled_exception_handler req debug msg requestId).status = 500 ∧
    (http_exception_handler req code detail).instanceUri = some req.url ∧
    (validation_exception_handler req errs).instanceUri = some req.url ∧
    (integrity_error_handler req pgcode msg).instanceUri = some req.url ∧
    (unhandled_exception_handler req debug msg requestId).instanceUri = some req.url ∧
    (http_exception_handler req code detail).meta = some [("method", Val.vstr req.method)] ∧
    (validation_exception_handler req errs).meta = some [("method", Val.vstr req.method)] ∧
    (integrity_error_handler req pgcode msg).meta = some [("method", Val.vstr req.method)] ∧
    (unhandled_exception_handler req debug msg requestId).meta =
      some [("method", Val.vstr req.method),
            ("request_id", match requestId with | some r => Val.vstr r | none => Val.vnull)] :=
  ⟨dump_keys_sub _, dump_keys_sub _, dump_keys_sub _, dump_keys_sub _,
   rfl, rfl, rfl, rfl, rfl, rfl, rfl, rfl, rfl, rfl, rfl, rfl⟩

/-- C3 witness: the conjunction instantiated on a concrete GET request. -/
theorem c3_uniform_problem_shape_witness :
    (http_exception_handler reqGet 404 (some "Instituição não encontrada")).status = 404 ∧
    (http_exception_handler reqGet 404 (some "Instituição não encontrada")).instanceUri =
      some "http://test/instituicoes/1" :=
  ⟨(c3_uniform_problem_shape reqGet 404 (some "Instituição não encontrada") [] none ""
      false none).2.2.2.2.1,
   (c3_uniform_problem_shape reqGet 404 (some "Instituição não encontrada") [] none ""
      false none).2.2.2.2.2.2.2.2.1⟩

/-- C9: every input-validation failure yields one 422 response whose
errors.items holds exactly one descriptor (loc, msg, type) per pydantic
error, covering the whole error list, in order. -/
theorem c9_validation_lists_every_field (req : RequestCtx) (errs : List PydanticError) :
    (validation_exception_handler req errs).status = 422 ∧
    (validation_exception_handler req errs).type = "urn:ppghub:errors:validation" ∧
    (validation_exception_handler req errs).errors =
      some [("items", Val.vlist (errs.map pydErrDescriptor))] ∧
    (errs.map pydErrDescriptor).length = errs.length ∧
    (∀ i (h : i < errs.length),
      (errs.map pydErrDescriptor).get ⟨i, by simpa using h⟩
        = pydErrDescriptor (errs.get ⟨i, h⟩)) := by
  refine ⟨rfl, rfl, rfl, by simp, ?_⟩
  intro i h
  simp [List.get_eq_getElem, List.getElem_map]

/-- C9 witness: two offending fields produce two descriptors, and the second
descriptor is the second error's descriptor. -/
theorem c9_validation_lists_every_field_witness :
    (validation_exception_handler reqGet
        [⟨Val.vstr "body.codigo", Val.vstr "Field required", Val.vstr "missing"⟩,
         ⟨Val.vstr "body.tipo", Val.vstr "Field required", Val.vstr "missing"⟩]).status = 422 ∧
    ([⟨Val.vstr "body.codigo", Val.vstr "Field required", Val.vstr "missing"⟩,
      (⟨Val.vstr "body.tipo", Val.vstr "Field required", Val.vstr "missing"⟩ : PydanticError)].map
        pydErrDescriptor).get ⟨1, by decide⟩
      = pydErrDescriptor ⟨Val.vstr "body.tipo", Val.vstr "Field required", Val.vstr "missing"⟩ :=
  ⟨(c9_validation_lists_every_field reqGet
      [⟨Val.vstr "body.codigo", Val.vstr "Field required", Val.vstr "missing"⟩,
       ⟨Val.vstr "body.tipo", Val.vstr "Field required", Val.vstr "missing"⟩]).1,
   (c9_validation_lists_every_field reqGet
      [⟨Val.vstr "body.codigo", Val.vstr "Field required", Val.vstr "missing"⟩,
       ⟨Val.vstr "body.tipo", Val.vstr "Field required", Val.vstr "missing"⟩]).2.2.2.2 1
      (by decide)⟩

/-- C1 (counterexample): a PATCH payload setting the non-nullable role column
`nome` to an explicit null is dumped into the changeset unchanged, the null is
written onto the loaded object, and the failure is the store's integrity error
at commit time — not a ValidationError raised before any write, as the claim
states. -/
theorem c1_null_patch_counterexample :
    RoleUpdatePayload.model_dump_exclude_unset { nome := some Val.vnull } = [("nome", Val.vnull)] ∧
    roleNullable.contains "nome" = false ∧
    getAttr (applyGuarded (roleRow 1 "admin") [("nome", Val.vnull)]) "nome" = some Val.vnull ∧
    RoleService.update_role [roleRow 1 "admin"] 1 { nome := some Val.vnull } =
      .integrityError :=
  ⟨rfl, rfl, rfl, rfl⟩

/-- C1 (amended): merge-patch semantics as the code implements them, for a
payload submitting exactly one field that the role object carries: a field
absent from the payload is omitted from the changeset and the stored value is
unchanged; a field present with a value is stored; a field present with an
explicit null is placed in the changeset and written regardless of
nullability, and when the column is non-nullable the store rejects the commit
with an integrity error (no ValidationError, and only after the write was
attempted). -/
theorem c1_patch_three_state (store : List Row) (rid : Int) (role : Row)
    (p : RoleUpdatePayload) (k : String) (v : Val)
    (hget : RoleRepository.get_by_id store rid = some role)
    (hdump : p.model_dump_exclude_unset = [(k, v)])
    (hcol : role.any (fun kv => kv.1 == k) = true) :
    RoleService.update_role store rid p =
      (if roleCommitViolation store rid (setAttr role k v) then .integrityError
       else .ok (setAttr role k v)) ∧
    getAttr (setAttr role k v) k = some v ∧
    (∀ k2, k2 ≠ k → getAttr (setAttr role k v) k2 = getAttr role k2) ∧
    (v = Val.vnull → k ∈ roleNonNullable →
      RoleService.update_role store rid p = .integrityError) := by
  have happ : applyGuarded role [(k, v)] = setAttr role k v := by
    simp [applyGuarded, hcol]
  have hmain : RoleService.update_role store rid p =
      (if roleCommitViolation store rid (setAttr role k v) then .integrityError
       else .ok (setAttr role k v)) := by
    simp [RoleService.update_role, RoleRepository.update, hdump, hget, happ]
  refine ⟨hmain, getAttr_setAttr_self role k v, fun k2 h => getAttr_setAttr_ne role k k2 v h, ?_⟩
  intro hv hk
  subst hv
  have hviol : roleCommitViolation store rid (setAttr role k Val.vnull) = true := by
    unfold roleCommitViolation
    rw [Bool.or_eq_true]
    left
    rw [List.any_eq_true]
    exact ⟨k, hk, by rw [getAttr_setAttr_self]⟩
  rw [hmain, if_pos hviol]

/-- C1 witness: updating the nullable field `descricao` with a value on a
concrete store succeeds and stores the value. -/
theorem c1_patch_three_state_witness :
    RoleRepository.get_by_id [roleRow 1 "admin"] 1 = some (roleRow 1 "admin") ∧
    (roleRow 1 "admin").any (fun kv => kv.1 == "descricao") = true ∧
    RoleService.update_role [roleRow 1 "admin"] 1 { descricao := some (Val.vstr "chefe") } =
      .ok (setAttr (roleRow 1 "admin") "descricao" (Val.vstr "chefe")) :=
  ⟨rfl, by decide, by
    have h := (c1_patch_three_state [roleRow 1 "admin"] 1 (roleRow 1 "admin")
      { descricao := some (Val.vstr "chefe") } "descricao" (Val.vstr "chefe")
      rfl rfl (by decide)).1
    rw [h]
    rfl⟩

/-- C4 (modelled from the spec, see `put_resolver`): REPLACE updates are full
replacement — when every field declared on the full schema is present the
changeset equals the full payload (explicit nulls included), and a payload
missing any declared field fails with a ValidationError naming that field
before any update is applied. -/
theorem c4_put_full_replace (payload : List (String × Val)) :
    (instituicaoBaseFields.all (fun k => payload.any (fun kv => kv.1 == k)) = true →
      put_resolver payload = .ok payload) ∧
    (∀ k, k ∈ instituicaoBaseFields → payload.any (fun kv => kv.1 == k) = false →
      ∃ m, put_resolver payload = .validationError m ∧ k ∈ m) := by
  constructor
  · intro hall
    have hfil : instituicaoBaseFields.filter
        (fun k => !(payload.any (fun kv => kv.1 == k))) = [] := by
      rw [List.filter_eq_nil_iff]
      intro a ha
      have := List.all_eq_true.mp hall a ha
      simp [this]
    simp [put_resolver, hfil]
  · intro k hk hnone
    have hmem : k ∈ instituicaoBaseFields.filter
        (fun k => !(payload.any (fun kv => kv.1 == k))) :=
      List.mem_filter.mpr ⟨hk, by simp [hnone]⟩
    rcases hfil : instituicaoBaseFields.filter
        (fun k => !(payload.any (fun kv => kv.1 == k))) with _ | ⟨a, t⟩
    · rw [hfil] at hmem
      exact absurd hmem (List.not_mem_nil k)
    · exact ⟨a :: t, by simp [put_resolver, hfil], hfil ▸ hmem⟩

/-- C4 witness: the all-fields payload (with explicit nulls) resolves to
itself; the empty payload fails with a ValidationError listing `codigo`. -/
theorem c4_put_full_replace_witness :
    put_resolver putPayloadAllNull = .ok putPayloadAllNull ∧
    (∃ m, put_resolver ([] : List (String × Val)) = .validationError m ∧ "codigo" ∈ m) :=
  ⟨(c4_put_full_replace putPayloadAllNull).1 (by decide),
   (c4_put_full_replace ([] : List (String × Val))).2 "codigo" (by decide) (by decide)⟩

/-- C5 (counterexample): a PATCH payload carrying the business code `codigo`
is not stripped: the service validates it for uniqueness and applies it, so
the stored codigo changes from "UEPB" to "UFCG" — contradicting the claim
that the stored codigo is unchanged after the update. -/
theorem c5_codigo_applied_counterexample :
    InstituicaoUpdate.model_dump_exclude_unset { codigo := some (Val.vstr "UFCG") } =
      [("codigo", Val.vstr "UFCG")] ∧
    InstituicaoService.update [instRow 1 "UEPB" "UEPB"] 1 { codigo := some (Val.vstr "UFCG") } =
      .ok (setAttr (instRow 1 "UEPB" "UEPB") "codigo" (Val.vstr "UFCG"), true, true) ∧
    getAttr (instRow 1 "UEPB" "UEPB") "codigo" = some (Val.vstr "UEPB") ∧
    getAttr (setAttr (instRow 1 "UEPB" "UEPB") "codigo" (Val.vstr "UFCG")) "codigo" =
      some (Val.vstr "UFCG") ∧
    Val.vstr "UFCG" ≠ Val.vstr "UEPB" := by
  refine ⟨rfl, rfl, rfl, rfl, ?_⟩
  simp

/-- C5 (amended): a payload containing `codigo` is applied, not stripped: when
another row already holds the submitted codigo the service raises ValueError,
and otherwise the changeset containing codigo reaches the store and the stored
codigo becomes the payload value. -/
theorem c5_codigo_applied_not_stripped (store : List Row) (iid : Int) (obj : Row)
    (c : String) (p : InstituicaoUpdate)
    (hget : InstituicaoRepository.get store iid = some obj)
    (hdump : p.model_dump_exclude_unset = [("codigo", Val.vstr c)])
    (hnodup : InstituicaoRepository.get_by_codigo store c = none)
    (hflush : instFlushViolation store iid (setAttr obj "codigo" (Val.vstr c)) = false) :
    InstituicaoService.update store iid p =
      .ok (setAttr obj "codigo" (Val.vstr c), true, true) ∧
    getAttr (setAttr obj "codigo" (Val.vstr c)) "codigo" = some (Val.vstr c) := by
  refine ⟨?_, getAttr_setAttr_self obj "codigo" (Val.vstr c)⟩
  rw [InstituicaoService.update.eq_def]
  rw [hget, hdump]
  simp only [lookupData, getAttr]
  simp [hnodup, hflush, InstituicaoRepository.update, List.foldl]
  decide

/-- C5 witness: the amended theorem at the concrete store of the
counterexample. -/
theorem c5_codigo_applied_not_stripped_witness :
    InstituicaoRepository.get [instRow 1 "UEPB" "UEPB"] 1 = some (instRow 1 "UEPB" "UEPB") ∧
    InstituicaoRepository.get_by_codigo [instRow 1 "UEPB" "UEPB"] "IFPB" = none ∧
    getAttr (setAttr (instRow 1 "UEPB" "UEPB") "codigo" (Val.vstr "IFPB")) "codigo" =
      some (Val.vstr "IFPB") :=
  ⟨rfl, rfl,
   (c5_codigo_applied_not_stripped [instRow 1 "UEPB" "UEPB"] 1 (instRow 1 "UEPB" "UEPB")
      "IFPB" { codigo := some (Val.vstr "IFPB") } rfl rfl rfl rfl).2⟩

/-- C6 (counterexample): for an update whose resolved changeset is empty the
service still invokes the store update (the second component of the success
triple records that `repo.update` was called — the code calls it
unconditionally once the pre-checks pass), contradicting the claim that the
store is not invoked at all.  The other two components confirm what does
hold: the row is unchanged and no UPDATE is issued, so the timestamp is not
bumped. -/
theorem c6_empty_update_counterexample :
    InstituicaoUpdate.model_dump_exclude_unset {} = ([] : List (String × Val)) ∧
    InstituicaoService.update [instRow 1 "UEPB" "UEPB"] 1 {} =
      .ok (instRow 1 "UEPB" "UEPB", true, false) :=
  ⟨rfl, rfl⟩

/-- C6 (amended): for an update whose resolved changeset is empty, the store
update is still invoked, but it applies no assignment: the row is returned
unchanged and the flush issues no UPDATE statement, so the updated-timestamp
is not bumped and the empty update is observationally a no-op. -/
theorem c6_empty_changeset_noop (store : List Row) (iid : Int) (obj : Row)
    (p : InstituicaoUpdate)
    (hget : InstituicaoRepository.get store iid = some obj)
    (hdump : p.model_dump_exclude_unset = [])
    (hflush : instFlushViolation store iid obj = false) :
    InstituicaoService.update store iid p = .ok (obj, true, false) := by
  rw [InstituicaoService.update.eq_def]
  rw [hget, hdump]
  simp [lookupData, getAttr, hflush, InstituicaoRepository.update, List.foldl]

/-- C6 witness: the amended theorem at the concrete one-row store. -/
theorem c6_empty_changeset_noop_witness :
    instFlushViolation [instRow 1 "UEPB" "UEPB"] 1 (instRow 1 "UEPB" "UEPB") = false ∧
    InstituicaoService.update [instRow 1 "UEPB" "UEPB"] 1
      { nome_completo := none } = .ok (instRow 1 "UEPB" "UEPB", true, false) :=
  ⟨rfl,
   c6_empty_changeset_noop [instRow 1 "UEPB" "UEPB"] 1 (instRow 1 "UEPB" "UEPB")
     { nome_completo := none } rfl rfl rfl⟩

/-- C7 (counterexample): creating an institution whose codigo collides with an
existing row is rejected by an in-process check-then-act read
(`get_by_codigo`) raising ValueError before the store is reached — not by the
store's atomic constraint — contradicting the claim that no uniqueness
pre-validation is performed and that duplicates surface only as 409 via the
store.  (Through the route, which catches only IntegrityError, this ValueError
surfaces as a 500, not a 409.) -/
theorem c7_precheck_counterexample :
    InstituicaoService.create [instRow 1 "UEPB" "UEPB"] 2 dupCreate =
      .valueError "Código já cadastrado para outra instituição." ∧
    InstituicaoService.create [instRow 1 "UEPB" "UEPB"] 2 dupCreate ≠
      .integrityError :=
  ⟨rfl, fun h => nomatch h⟩

/-- C7 (amended): the institution service performs check-then-act uniqueness
pre-validation: whenever another row already holds the payload codigo, the
create raises ValueError from the pre-check and never reaches the store. -/
theorem c7_create_prechecks_uniqueness (store : List Row) (nextId : Int)
    (p : InstituicaoCreate) (other : Row)
    (hdup : InstituicaoRepository.get_by_codigo store p.codigo = some other) :
    InstituicaoService.create store nextId p =
      .valueError "Código já cadastrado para outra instituição." := by
  simp [InstituicaoService.create, hdup]

/-- C7 witness: the amended theorem at the concrete duplicate payload. -/
theorem c7_create_prechecks_uniqueness_witness :
    InstituicaoRepository.get_by_codigo [instRow 1 "UEPB" "UEPB"] dupCreate.codigo =
      some (instRow 1 "UEPB" "UEPB") ∧
    InstituicaoService.create [instRow 1 "UEPB" "UEPB"] 2 dupCreate =
      .valueError "Código já cadastrado para outra instituição." :=
  ⟨rfl, c7_create_prechecks_uniqueness [instRow 1 "UEPB" "UEPB"] 2 dupCreate
    (instRow 1 "UEPB" "UEPB") rfl⟩

/-- C8 (counterexample): deleting a nonexistent institution id returns the 200
success status (with a success message), and deleting a nonexistent role id
returns 204 No Content — not the 404 the claim requires for every entity. -/
theorem c8_delete_status_counterexample :
    InstituicaoRepository.get ([] : List Row) 1 = none ∧
    delete_instituicao_route [] 1 = (200, []) ∧
    delete_role_route [] 1 false = (204, []) ∧
    (200 : Nat) ≠ 404 ∧ (204 : Nat) ≠ 404 :=
  ⟨rfl, rfl, rfl, by decide, by decide⟩

/-- C8 (amended): reading a nonexistent institution id returns 404; updating a
nonexistent role returns 404 (ValueError mapped by the route); deleting a
nonexistent programa returns 404; but deleting a nonexistent institution
returns 200 with a success body and deleting a nonexistent role returns 204,
both leaving the store untouched — deletes are not uniformly 404. -/
theorem c8_not_found_statuses (storeI storeR storeP : List Row) (iid rid pid : Int)
    (p : RoleUpdatePayload)
    (hI : InstituicaoRepository.get storeI iid = none)
    (hR : RoleRepository.get_by_id storeR rid = none)
    (hP : storeP.find? (fun r => rowIdIs r pid) = none) :
    get_instituicao_route storeI iid = 404 ∧
    update_role_route storeR rid p = 404 ∧
    delete_programa_route storeP pid false = (404, storeP) ∧
    delete_instituicao_route storeI iid = (200, storeI) ∧
    delete_role_route storeR rid false = (204, storeR) ∧
    delete_role_route storeR rid true = (204, storeR) := by
  have hAllR : ∀ r ∈ storeR, rowIdIs r rid = false := by
    intro r hr
    simpa using List.find?_eq_none.mp hR r hr
  have hmapR : ∀ (l : List Row), (∀ r ∈ l, rowIdIs r rid = false) →
      l.map (fun r => if rowIdIs r rid then setAttr r "ativo" (Val.vbool false) else r) = l := by
    intro l hl
    induction l with
    | nil => rfl
    | cons a t ih =>
      simp [hl a (List.mem_cons_self a t), ih (fun r hr => hl r (List.mem_cons_of_mem a hr))]
  have hfilR : storeR.filter (fun r => !(rowIdIs r rid)) = storeR := by
    rw [List.filter_eq_self]
    intro a ha
    simp [hAllR a ha]
  refine ⟨by simp [get_instituicao_route, hI],
          by rw [update_role_route.eq_def, RoleService.update_role, RoleRepository.update.eq_def, hR],
          by simp [delete_programa_route, ProgramaRepository.delete, hP],
          by simp [delete_instituicao_route, hI],
          by simp [delete_role_route, hmapR storeR hAllR],
          by simp [delete_role_route, hfilR]⟩

/-- C8 witness: the amended theorem on empty stores. -/
theorem c8_not_found_statuses_witness :
    get_instituicao_route ([] : List Row) 7 = 404 ∧
    update_role_route ([] : List Row) 7 {} = 404 ∧
    delete_programa_route ([] : List Row) 7 false = (404, []) := by
  have h := c8_not_found_statuses ([] : List Row) ([] : List Row) ([] : List Row)
    7 7 7 {} rfl rfl rfl
  exact ⟨h.1, h.2.1, h.2.2.1⟩

/-- C10: the institution schemas use the field name `ativo` while the model
declares the column `ativa`.  Consequently a create payload dumped at the
route boundary — which always carries `ativo`, defaulted to true — makes
`Instituicao(**data)` fail with a TypeError on the unknown keyword, and every
list or count call with only_active=True fails with an AttributeError on the
nonexistent mapped attribute `Instituicao.ativo` instead of filtering by the
active flag. -/
theorem c10_ativo_ativa_mismatch (p : InstituicaoCreate) (store : List Row)
    (nextId : Int) (limit offset : Nat) :
    lookupData p.model_dump "ativo" = some (Val.vbool (p.ativo.getD true)) ∧
    InstituicaoRepository.create store nextId p.model_dump = .typeError "ativo" ∧
    InstituicaoRepository.list store limit offset true = .attributeError ∧
    InstituicaoRepository.count store true = .attributeError ∧
    instituicaoBaseFields.contains "ativo" = true ∧
    instituicaoColumns.contains "ativo" = false ∧
    instituicaoColumns.contains "ativa" = true :=
  ⟨rfl, rfl, rfl, rfl, by decide, by decide, by decide⟩
